import Mathlib

/-!
Verification of the UKCovid19-Dashboard notebook (`Dashboard.ipynb`).

The notebook's pipeline is embedded shallowly:
- JSON cells become an inductive `Cell`; per-day records are association
  lists; the raw payload is an association list from top-level keys to
  record lists.
- `pd.json_normalize(data, record_path=['data'])` becomes `json_normalize`:
  the column set is the union of record keys in order of first appearance,
  and each record is completed to that schema with `null` for absent keys.
- `df.loc[::-1]` is `List.reverse`; `df.fillna(0.0)` replaces `null`
  cells with the number 0 (`fillCell`).
- Python exceptions are modelled with `Except String`: a function that can
  raise returns `Except.error msg`, and an uncaught exception propagates as
  the error value.
- The widget state (`df`, the dropdown `cols.value`, the button icon) is a
  `DashState`; setting the dropdown fires a render event exactly when the
  value changes, as `ipywidgets.interactive_output` does; the callback
  returns the trace of events it caused.
-/

/-- A JSON/pandas cell: null (NaN), a string, or a number. -/
inductive Cell where
  | null : Cell
  | str : String → Cell
  | num : Int → Cell
deriving DecidableEq, Repr

/-- One per-day record: an association list from field name to cell. -/
abbrev Record := List (String × Cell)

/-- The normalized table: an ordered list of rows. -/
abbrev Table := List Record

/-- A raw snapshot: top-level keys mapped to record lists
(the real payload has the single key "data"). -/
abbrev Raw := List (String × List Record)

/-- First-match lookup in an association list keyed by strings. -/
def alistLookup {α : Type} (k : String) : List (String × α) → Option α
  | [] => none
  | (k2, v) :: rest => if k2 = k then some v else alistLookup k rest

/-- Accumulate the keys of one record after `acc`, keeping first-appearance
order and skipping keys already present (pandas column-union behaviour). -/
def addKeys (acc : List String) (r : Record) : List String :=
  acc ++ ((r.map Prod.fst).filter (fun k => ¬ acc.contains k))

/-- The column schema `pd.json_normalize` produces: union of record keys in
order of first appearance. -/
def colsOf (rs : List Record) : List String := rs.foldl addKeys []

/-- Complete one record to the column schema, `null` (NaN) for absent keys. -/
def completeRow (cols : List String) (r : Record) : Record :=
  cols.map (fun c => (c, (alistLookup c r).getD Cell.null))

/-- `pd.json_normalize(data, record_path=['data'])` applied to the record
list: one row per record, columns equal to the union schema. -/
def json_normalize (rs : List Record) : Table :=
  rs.map (completeRow (colsOf rs))

/-- `fillna(0.0)` on one cell: NaN becomes the number 0. -/
def fillCell : Cell → Cell
  | Cell.null => Cell.num 0
  | Cell.str s => Cell.str s
  | Cell.num n => Cell.num n

/-- `fillna(0.0)` on one row. -/
def fillRow (r : Record) : Record := r.map (fun p => (p.1, fillCell p.2))

/-- `wrangle_data` from Dashboard.ipynb: flatten the "data" records
(`KeyError` if the key is absent), reverse the rows, fill NaN with 0.0. -/
def wrangle_data (raw : Raw) : Except String Table :=
  match alistLookup "data" raw with
  | none => Except.error "KeyError: data"
  | some rs =>
    let df := json_normalize rs
    let dfRev := df.reverse
    Except.ok (dfRev.map fillRow)

/-- The dropdown options of the `cols` widget. -/
def options : List String := ["totalCases", "totalDeaths", "totalAdmissions"]

/-- The if/elif/else chain in `refresh_graph` that picks the decoy value. -/
def other_of (current : String) : String :=
  if current = options.getD 0 "" then options.getD 1 ""
  else if current = options.getD 1 "" then options.getD 2 ""
  else options.getD 0 ""

/-- The notebook's widget state: the plotting dataframe `df`, the dropdown
value `cols.value` and the refresh button icon. -/
structure DashState where
  df : Table
  colsValue : String
  icon : String
deriving DecidableEq, Repr

/-- Observable events of one callback invocation, in order. -/
inductive Event where
  | fetchCall : Event
  | dfAssign : Table → Event
  | render : Table → String → Event
  | iconSet : String → Event
deriving DecidableEq, Repr

/-- Assigning `cols.value`: `interactive_output` re-runs `graph` (a render
of the current `df` with the new value) exactly when the value changes. -/
def setColsValue (s : DashState) (v : String) : DashState × List Event :=
  if v = s.colsValue then ({ s with colsValue := v }, [])
  else ({ s with colsValue := v }, [Event.render s.df v])

/-- `refresh_graph` from Dashboard.ipynb: remember the current dropdown
value, set the decoy value, set the original back. -/
def refresh_graph (s : DashState) : DashState × List Event :=
  let current := s.colsValue
  let other := other_of current
  let p1 := setColsValue s other
  let p2 := setColsValue p1.1 current
  (p2.1, p1.2 ++ p2.2)

/-- The fixed region filter passed to `Cov19API`. -/
def england_only : List String := ["areaType=nation", "areaName=England"]

/-- The fixed field-name remapping passed to `Cov19API`. -/
def cases_death_and_vaccin : List (String × String) :=
  [("date", "date"),
   ("totalCases", "cumCasesByPublishDate"),
   ("totalDeaths", "cumDeaths28DaysByDeathDate"),
   ("totalAdmissions", "cumAdmissions")]

/-- `access_api` from Dashboard.ipynb. The remote call `api.get_json()` is
the parameter `get_json`, applied to the fixed filters and structure; its
result, including any exception, passes through unhandled (the body has no
try/except). -/
def access_api (get_json : List String → List (String × String) → Except String Raw) :
    Except String Raw := do
  let data ← get_json england_only cases_death_and_vaccin
  pure data

/-- `api_button_callback` from Dashboard.ipynb: fetch, wrangle into the
global `df`, `refresh_graph()`, then set the button icon to "check". An
exception from `access_api` or `wrangle_data` propagates (`Except.error`)
and skips every later statement. The middle component is the event trace. -/
def api_button_callback
    (get_json : List String → List (String × String) → Except String Raw)
    (s : DashState) : DashState × List Event × Except String Unit :=
  match access_api get_json with
  | Except.error e => (s, [Event.fetchCall], Except.error e)
  | Except.ok apidata =>
    match wrangle_data apidata with
    | Except.error e => (s, [Event.fetchCall], Except.error e)
    | Except.ok newdf =>
      let s1 := { s with df := newdf }
      let p := refresh_graph s1
      let s3 := { p.1 with icon := "check" }
      (s3, [Event.fetchCall, Event.dfAssign newdf] ++ p.2 ++ [Event.iconSet "check"],
       Except.ok ())

/-- The date cell of a row, as a string (empty if absent or non-string). -/
def dateStr (r : Record) : String :=
  match alistLookup "date" r with
  | some (Cell.str s) => s
  | _ => ""

/-- The dates of a table, in row order. -/
def dateStrs (t : Table) : List String := t.map dateStr

def charListLt : List Char → List Char → Bool
  | [], [] => false
  | [], _ :: _ => true
  | _ :: _, [] => false
  | a :: as, b :: bs => if a < b then true else if b < a then false else charListLt as bs

def dateLt (a b : String) : Bool := charListLt a.data b.data

def sortedAscBy (lt : String → String → Bool) : List String → Bool
  | [] => true
  | [_] => true
  | a :: b :: rest => lt a b && sortedAscBy lt (b :: rest)

def isStrCell : Option Cell → Bool
  | some (Cell.str _) => true
  | _ => false

def r13 : Record :=
  [("date", Cell.str "2022-11-13"), ("totalCases", Cell.num 20228010),
   ("totalDeaths", Cell.num 172535), ("totalAdmissions", Cell.num 902001)]

def r14 : Record :=
  [("date", Cell.str "2022-11-14"), ("totalCases", Cell.num 20228010),
   ("totalDeaths", Cell.num 172617), ("totalAdmissions", Cell.num 902523)]

def r15 : Record :=
  [("date", Cell.str "2022-11-15"), ("totalCases", Cell.num 20228010),
   ("totalDeaths", Cell.num 172694), ("totalAdmissions", Cell.num 903017)]

def r16 : Record :=
  [("date", Cell.str "2022-11-16"), ("totalCases", Cell.num 20228010),
   ("totalDeaths", Cell.num 172740), ("totalAdmissions", Cell.num 903559)]

def r17 : Record :=
  [("date", Cell.str "2022-11-17"), ("totalCases", Cell.num 20248860),
   ("totalDeaths", Cell.num 172804), ("totalAdmissions", Cell.num 904075)]

def ascRaw : Raw := [("data", [r13, r14, r15, r16, r17])]

def descRaw : Raw := [("data", [r17, r16, r15, r14, r13])]

def r18 : Record :=
  [("date", Cell.str "2022-11-18"), ("totalCases", Cell.num 20249000),
   ("totalDeaths", Cell.num 172810), ("totalAdmissions", Cell.num 904200)]

def raw18 : Raw := [("data", [r18])]

def rMissing : Record := [("date", Cell.str "2022-11-13"), ("totalCases", Cell.num 20228010)]

def c4Raw : Raw := [("data", [rMissing])]

def c4WideRaw : Raw := [("data", [rMissing, r14])]

def rNoDate : Record := [("totalCases", Cell.num 5)]

def s0 : DashState := { df := [r13], colsValue := "totalCases", icon := "rotate-right" }

lemma setColsValue_fst (s : DashState) (v : String) :
    (setColsValue s v).1 = { s with colsValue := v } := by
  unfold setColsValue; split <;> rfl

lemma other_of_ne (v : String) : other_of v ≠ v := by
  intro h
  unfold other_of at h
  by_cases h0 : v = options.getD 0 ""
  · rw [if_pos h0] at h
    exact absurd (h.trans h0) (by decide)
  · rw [if_neg h0] at h
    by_cases h1 : v = options.getD 1 ""
    · rw [if_pos h1] at h
      exact absurd (h.trans h1) (by decide)
    · rw [if_neg h1] at h
      exact h0 h.symm

lemma refresh_graph_fst (s : DashState) : (refresh_graph s).1 = s := by
  cases s with
  | mk d v i => simp [refresh_graph, setColsValue_fst]

lemma refresh_graph_events (s : DashState) :
    (refresh_graph s).2 =
      [Event.render s.df (other_of s.colsValue), Event.render s.df s.colsValue] := by
  have h1 : ¬ (other_of s.colsValue = s.colsValue) := other_of_ne _
  have h2 : ¬ (s.colsValue = other_of s.colsValue) := fun h => other_of_ne _ h.symm
  simp [refresh_graph, setColsValue, h1, h2]

lemma alistLookup_fillRow (r : Record) (c : String) :
    alistLookup c (fillRow r) = (alistLookup c r).map fillCell := by
  induction r with
  | nil => rfl
  | cons p ps ih =>
    cases p with
    | mk k v =>
      by_cases h : k = c
      · simp [fillRow, alistLookup, h]
      · simpa [fillRow, alistLookup, h] using ih

lemma alistLookup_completeRow (cols : List String) (r : Record) (c : String) :
    alistLookup c (completeRow cols r) =
      if c ∈ cols then some ((alistLookup c r).getD Cell.null) else none := by
  induction cols with
  | nil => simp [completeRow, alistLookup]
  | cons a as ih =>
    by_cases h : a = c
    · subst h
      simp [completeRow, alistLookup]
    · have : completeRow (a :: as) r = (a, (alistLookup a r).getD Cell.null) :: completeRow as r := rfl
      rw [this]
      rw [show alistLookup c ((a, (alistLookup a r).getD Cell.null) :: completeRow as r) =
            alistLookup c (completeRow as r) from by simp [alistLookup, h]]
      rw [ih]
      by_cases hc : c ∈ as
      · rw [if_pos hc, if_pos (List.mem_cons_of_mem a hc)]
      · rw [if_neg hc, if_neg (fun hm => by
          rcases List.mem_cons.mp hm with h2 | h2
          · exact h h2.symm
          · exact hc h2)]

lemma mem_foldl_addKeys (rs : List Record) :
    ∀ (acc : List String) (k : String), k ∈ acc → k ∈ rs.foldl addKeys acc := by
  induction rs with
  | nil => intro acc k h; simpa using h
  | cons r rs ih =>
    intro acc k h
    exact ih _ _ (by simp [addKeys, h])

lemma key_mem_colsOf_aux (k : String) :
    ∀ (rs : List Record) (acc : List String) (r : Record),
      r ∈ rs → k ∈ r.map Prod.fst → k ∈ rs.foldl addKeys acc := by
  intro rs
  induction rs with
  | nil => simp
  | cons r0 rs ih =>
    intro acc r hr hk
    rcases List.mem_cons.mp hr with h | h
    · subst h
      rw [List.foldl_cons]
      apply mem_foldl_addKeys
      by_cases hc : k ∈ acc
      · simp [addKeys, hc]
      · simp [addKeys, List.mem_filter, hk, hc]
    · exact ih _ r h hk

lemma alistLookup_mem_keys {α : Type} (k : String) (v : α) :
    ∀ (r : List (String × α)), alistLookup k r = some v → k ∈ r.map Prod.fst := by
  intro r
  induction r with
  | nil => intro h; cases h
  | cons p ps ih =>
    intro h
    cases p with
    | mk k2 v2 =>
      by_cases he : k2 = k
      · subst he; simp
      · rw [show alistLookup k ((k2, v2) :: ps) = alistLookup k ps from by simp [alistLookup, he]] at h
        simp [ih h]

lemma key_mem_colsOf (k : String) (rs : List Record) (r : Record) (v : Cell)
    (hr : r ∈ rs) (hv : alistLookup k r = some v) : k ∈ colsOf rs :=
  key_mem_colsOf_aux k rs [] r hr (alistLookup_mem_keys k v r hv)

lemma dateStr_norm (cols : List String) (r : Record) (s0 : String)
    (hd : alistLookup "date" r = some (Cell.str s0)) (hc : "date" ∈ cols) :
    dateStr (fillRow (completeRow cols r)) = s0 := by
  unfold dateStr
  rw [alistLookup_fillRow, alistLookup_completeRow, if_pos hc, hd]
  rfl

lemma sortedAscBy_iff_chain (lt : String → String → Bool) :
    ∀ l : List String,
      sortedAscBy lt l = true ↔ List.Chain' (fun a b => lt a b = true) l := by
  intro l
  induction l with
  | nil => simp [sortedAscBy]
  | cons a l ih =>
    cases l with
    | nil => simp [sortedAscBy]
    | cons b rest =>
      rw [show sortedAscBy lt (a :: b :: rest) = (lt a b && sortedAscBy lt (b :: rest)) from rfl]
      rw [List.chain'_cons, Bool.and_eq_true, ih]

lemma dateStr_of_lookup (r : Record) (s : String)
    (h : alistLookup "date" r = some (Cell.str s)) : dateStr r = s := by
  unfold dateStr
  rw [h]

/-- Claim C1 counterexample: the ascending 5-row fixture and the descending fixture of the same rows do not yield identical output. `wrangle_data` reverses its input unconditionally, so the ascending fixture comes out descending (its date list is not ascending). -/
theorem wrangle_asc_desc_fixtures_differ :
    wrangle_data ascRaw = Except.ok [r17, r16, r15, r14, r13] ∧
    wrangle_data descRaw = Except.ok [r13, r14, r15, r16, r17] ∧
    ([r17, r16, r15, r14, r13] : Table) ≠ [r13, r14, r15, r16, r17] ∧
    sortedAscBy dateLt (dateStrs [r17, r16, r15, r14, r13]) = false :=
  ⟨rfl, rfl, by decide, by decide⟩

/-- Claim C1 (amended): `wrangle_data` returns the input rows reversed, so its output is ascending by date exactly when the source delivers most-recent-first. For every snapshot whose records carry string dates in strictly descending order, wrangling succeeds and the output dates are strictly ascending. -/
theorem wrangle_desc_dates_gives_asc (raw : Raw) (rs : List Record)
    (hdata : alistLookup "data" raw = some rs)
    (hdates : ∀ r ∈ rs, isStrCell (alistLookup "date" r) = true)
    (hdesc : sortedAscBy (fun a b => dateLt b a) (rs.map dateStr) = true) :
    ∃ t, wrangle_data raw = Except.ok t ∧ sortedAscBy dateLt (dateStrs t) = true := by
  have key : ∀ r ∈ rs, dateStr (fillRow (completeRow (colsOf rs) r)) = dateStr r := by
    intro r hr
    have hs := hdates r hr
    cases h : alistLookup "date" r with
    | none => rw [h] at hs; simp [isStrCell] at hs
    | some c =>
      cases c with
      | null => rw [h] at hs; simp [isStrCell] at hs
      | num n => rw [h] at hs; simp [isStrCell] at hs
      | str s =>
        have hc : "date" ∈ colsOf rs := key_mem_colsOf "date" rs r _ hr h
        rw [dateStr_norm (colsOf rs) r s h hc, dateStr_of_lookup r s h]
  have ht : wrangle_data raw = Except.ok (((json_normalize rs).reverse).map fillRow) := by
    unfold wrangle_data
    rw [hdata]
  refine ⟨_, ht, ?_⟩
  have hmap : dateStrs (((json_normalize rs).reverse).map fillRow) = (rs.map dateStr).reverse := by
    unfold dateStrs json_normalize
    rw [List.map_reverse, List.map_reverse, List.map_map, List.map_map]
    congr 1
    exact List.map_congr_left (fun r hr => key r hr)
  rw [hmap]
  rw [sortedAscBy_iff_chain] at hdesc ⊢
  rw [List.chain'_reverse]
  exact hdesc

/-- Witness for the amended claim C1, at the descending 5-row fixture. -/
theorem wrangle_desc_dates_gives_asc_witness :
    (∀ r ∈ ([r17, r16, r15, r14, r13] : List Record), isStrCell (alistLookup "date" r) = true) ∧
    sortedAscBy (fun a b => dateLt b a) (([r17, r16, r15, r14, r13] : List Record).map dateStr) = true ∧
    ∃ t, wrangle_data descRaw = Except.ok t ∧ sortedAscBy dateLt (dateStrs t) = true :=
  ⟨by decide, by decide,
   wrangle_desc_dates_gives_asc descRaw [r17, r16, r15, r14, r13] rfl (by decide) (by decide)⟩

/-- Claim C2: if the fetch raises, or the fetch succeeds but `wrangle_data` raises on the payload, `api_button_callback` leaves the widget state (including the global `df`) identical to its pre-invocation value and the invocation reports failure (the exception reaches the caller). -/
theorem failed_refresh_preserves_state
    (g : List String → List (String × String) → Except String Raw) (s : DashState)
    (h : ∀ r, access_api g = Except.ok r → (wrangle_data r).isOk = false) :
    (api_button_callback g s).1 = s ∧
    ((api_button_callback g s).2.2).isOk = false := by
  cases hg : access_api g with
  | error e => simp [api_button_callback, hg, Except.isOk, Except.toBool]
  | ok r =>
    have hw := h r hg
    cases hw2 : wrangle_data r with
    | error e => simp [api_button_callback, hg, hw2, Except.isOk, Except.toBool]
    | ok t =>
      rw [hw2] at hw
      simp [Except.isOk, Except.toBool] at hw

/-- Witness for claim C2: a transport-successful payload that lacks the "data" key leaves the state unchanged and fails. -/
theorem failed_refresh_preserves_state_witness :
    (∀ r, access_api (fun _ _ => Except.ok ([("records", [r13])] : Raw)) = Except.ok r →
       (wrangle_data r).isOk = false) ∧
    (api_button_callback (fun _ _ => Except.ok ([("records", [r13])] : Raw)) s0).1 = s0 ∧
    ((api_button_callback (fun _ _ => Except.ok ([("records", [r13])] : Raw)) s0).2.2).isOk = false := by
  have hyp : ∀ r, access_api (fun _ _ => Except.ok ([("records", [r13])] : Raw)) = Except.ok r →
      (wrangle_data r).isOk = false := by
    intro r h
    have h2 : ([("records", [r13])] : Raw) = r := by
      have h3 : (Except.ok ([("records", [r13])] : Raw) : Except String Raw) = Except.ok r := h
      injection h3
    rw [← h2]
    rfl
  exact ⟨hyp, (failed_refresh_preserves_state _ s0 hyp).1,
         (failed_refresh_preserves_state _ s0 hyp).2⟩

/-- Claim C3 counterexample: `access_api` has no exception handler, so a remote error propagates past the fetcher boundary instead of being returned as a tagged Failure value. -/
theorem access_api_error_propagates :
    access_api (fun _ _ => Except.error "ConnectionError") = Except.error "ConnectionError" := rfl

/-- Claim C3 (amended): `access_api` simply returns whatever the remote call produces for the fixed query — raw data on success, and the propagated exception on any failure; there is no FetchOutcome tag and no catching. -/
theorem access_api_returns_get_json
    (g : List String → List (String × String) → Except String Raw) :
    access_api g = g england_only cases_death_and_vaccin := by
  unfold access_api
  cases g england_only cases_death_and_vaccin <;> rfl

/-- Witness for the amended claim C3 at a concrete successful remote. -/
theorem access_api_returns_get_json_witness :
    access_api (fun _ _ => Except.ok ascRaw) =
      (fun _ _ => Except.ok ascRaw) england_only cases_death_and_vaccin :=
  access_api_returns_get_json (fun _ _ => Except.ok ascRaw)

/-- Claim C4 counterexample: the spec fixture row as a whole snapshot. Wrangling succeeds, but the absent metrics totalDeaths and totalAdmissions yield no field at all in the output row (no column is created), rather than the claimed 0.0 values. -/
theorem wrangle_absent_column_not_filled :
    wrangle_data c4Raw = Except.ok [rMissing] ∧
    alistLookup "totalDeaths" rMissing = none ∧
    alistLookup "totalAdmissions" rMissing = none :=
  ⟨rfl, rfl, rfl⟩

/-- Claim C4 (amended): `wrangle_data` never drops a row, and a metric absent from a record appears in that record's output row with value 0.0 provided the metric occurs in at least one record of the snapshot (pandas creates a column only for keys that occur somewhere). -/
theorem wrangle_fills_missing_metric (raw : Raw) (rs : List Record)
    (hdata : alistLookup "data" raw = some rs) :
    ∃ t, wrangle_data raw = Except.ok t ∧ t.length = rs.length ∧
      ∀ r ∈ rs, fillRow (completeRow (colsOf rs) r) ∈ t ∧
        ∀ c ∈ colsOf rs, alistLookup c r = none →
          alistLookup c (fillRow (completeRow (colsOf rs) r)) = some (Cell.num 0) := by
  have ht : wrangle_data raw = Except.ok (((json_normalize rs).reverse).map fillRow) := by
    unfold wrangle_data
    rw [hdata]
  refine ⟨_, ht, ?_, ?_⟩
  · simp [json_normalize]
  · intro r hr
    constructor
    · simp only [json_normalize, List.map_reverse, List.map_map, List.mem_reverse, List.mem_map]
      exact ⟨r, hr, rfl⟩
    · intro c hc hnone
      rw [alistLookup_fillRow, alistLookup_completeRow, if_pos hc, hnone]
      rfl

/-- Witness for the amended claim C4: next to a complete row, the fixture row missing totalDeaths gets the value 0.0 for it. -/
theorem wrangle_fills_missing_metric_witness :
    alistLookup "data" c4WideRaw = some [rMissing, r14] ∧
    "totalDeaths" ∈ colsOf [rMissing, r14] ∧
    alistLookup "totalDeaths" rMissing = none ∧
    alistLookup "totalDeaths" (fillRow (completeRow (colsOf [rMissing, r14]) rMissing)) =
      some (Cell.num 0) := by
  refine ⟨rfl, by decide, rfl, ?_⟩
  obtain ⟨t, ht, hlen, hmem⟩ := wrangle_fills_missing_metric c4WideRaw [rMissing, r14] rfl
  exact (hmem rMissing (by decide)).2 "totalDeaths" (by decide) rfl

/-- Claim C5 counterexample: a payload whose row lacks the date field is accepted, not rejected — alone it wrangles to a dateless row, and next to a dated row its date cell is silently filled with 0.0. -/
theorem wrangle_accepts_missing_date :
    wrangle_data [("data", [rNoDate])] = Except.ok [[("totalCases", Cell.num 5)]] ∧
    wrangle_data [("data", [rNoDate, r13])] =
      Except.ok
        [[("totalCases", Cell.num 20228010), ("date", Cell.str "2022-11-13"),
          ("totalDeaths", Cell.num 172535), ("totalAdmissions", Cell.num 902001)],
         [("totalCases", Cell.num 5), ("date", Cell.num 0),
          ("totalDeaths", Cell.num 0), ("totalAdmissions", Cell.num 0)]] :=
  ⟨rfl, rfl⟩

/-- Claim C5 (amended): `wrangle_data` fails exactly when the payload lacks the top-level "data" key; a row without a date is not an error, and dates are not validated. -/
theorem wrangle_ok_iff_data_key (raw : Raw) :
    (wrangle_data raw).isOk = true ↔ (alistLookup "data" raw).isSome = true := by
  unfold wrangle_data
  cases alistLookup "data" raw <;> simp [Except.isOk, Except.toBool]

/-- Claim C6: when fetch and wrangling both succeed, `api_button_callback` replaces the global `df` wholesale with the newly wrangled table, reports success, and a render with the currently selected metric reading the new table is triggered. -/
theorem successful_refresh_replaces_df
    (g : List String → List (String × String) → Except String Raw) (s : DashState)
    (r : Raw) (t : Table)
    (h1 : access_api g = Except.ok r) (h2 : wrangle_data r = Except.ok t) :
    (api_button_callback g s).1.df = t ∧
    (api_button_callback g s).2.2 = Except.ok () ∧
    Event.render t s.colsValue ∈ (api_button_callback g s).2.1 := by
  simp only [api_button_callback, h1, h2]
  refine ⟨?_, trivial, ?_⟩
  · show (refresh_graph { s with df := t }).1.df = t
    rw [refresh_graph_fst]
  · show Event.render t s.colsValue ∈
      [Event.fetchCall, Event.dfAssign t] ++ (refresh_graph { s with df := t }).2 ++
        [Event.iconSet "check"]
    rw [refresh_graph_events]
    simp

/-- Witness for claim C6 at the one-row fixture snapshot: the resulting table is exactly that one row. -/
theorem successful_refresh_replaces_df_witness :
    access_api (fun _ _ => Except.ok raw18) = Except.ok raw18 ∧
    wrangle_data raw18 = Except.ok [r18] ∧
    (api_button_callback (fun _ _ => Except.ok raw18) s0).1.df = [r18] ∧
    (api_button_callback (fun _ _ => Except.ok raw18) s0).2.2 = Except.ok () ∧
    Event.render [r18] "totalCases" ∈ (api_button_callback (fun _ _ => Except.ok raw18) s0).2.1 := by
  have h := successful_refresh_replaces_df (fun _ _ => Except.ok raw18) s0 raw18 [r18] rfl rfl
  exact ⟨rfl, rfl, h.1, h.2.1, h.2.2⟩

/-- Claim C7: `refresh_graph` picks as decoy the next metric in the cycle totalCases → totalDeaths → totalAdmissions → totalCases, sets the selection to the decoy and back, and the selection always ends equal to its original value. -/
theorem refresh_graph_cycle_restores_selection :
    other_of "totalCases" = "totalDeaths" ∧
    other_of "totalDeaths" = "totalAdmissions" ∧
    other_of "totalAdmissions" = "totalCases" ∧
    ∀ s : DashState,
      (refresh_graph s).2 =
        [Event.render s.df (other_of s.colsValue), Event.render s.df s.colsValue] ∧
      (refresh_graph s).1.colsValue = s.colsValue :=
  ⟨by decide, by decide, by decide,
   fun s => ⟨refresh_graph_events s, by rw [refresh_graph_fst]⟩⟩

/-- Claim C8: `wrangle_data` is deterministic and pure — repeated calls on the same input agree, and the `df` a successful refresh produces does not depend on the prior widget state, so the function behaves identically on canned and live data. -/
theorem wrangle_pure_deterministic :
    (∀ x : Raw, wrangle_data x = wrangle_data x) ∧
    (∀ (g : List String → List (String × String) → Except String Raw)
       (s s2 : DashState) (r : Raw) (t : Table),
       access_api g = Except.ok r → wrangle_data r = Except.ok t →
       (api_button_callback g s).1.df = (api_button_callback g s2).1.df) := by
  refine ⟨fun _ => rfl, ?_⟩
  intro g s s2 r t h1 h2
  simp only [api_button_callback, h1, h2]
  show (refresh_graph { s with df := t }).1.df = (refresh_graph { s2 with df := t }).1.df
  rw [refresh_graph_fst, refresh_graph_fst]

/-- Witness for claim C8: two refreshes of the same payload from different prior states produce the same `df`. -/
theorem wrangle_pure_deterministic_witness :
    access_api (fun _ _ => Except.ok ascRaw) = Except.ok ascRaw ∧
    wrangle_data ascRaw = Except.ok [r17, r16, r15, r14, r13] ∧
    (api_button_callback (fun _ _ => Except.ok ascRaw) s0).1.df =
      (api_button_callback (fun _ _ => Except.ok ascRaw)
        { df := [], colsValue := "totalDeaths", icon := "unlink" }).1.df :=
  ⟨rfl, rfl,
   wrangle_pure_deterministic.2 (fun _ _ => Except.ok ascRaw) s0
     { df := [], colsValue := "totalDeaths", icon := "unlink" } ascRaw
     [r17, r16, r15, r14, r13] rfl rfl⟩

/-- Claim C9: for a snapshot of n records already in normalized shape, the wrangled table has exactly n rows and its row at position i is the input record at position n-1-i — the output is the element-wise reversal of the input, whatever the date order. -/
theorem wrangle_is_elementwise_reversal (raw : Raw) (rs : List Record) (t : Table)
    (hdata : alistLookup "data" raw = some rs)
    (hcomplete : ∀ r ∈ rs, fillRow (completeRow (colsOf rs) r) = r)
    (ht : wrangle_data raw = Except.ok t) :
    t.length = rs.length ∧
    ∀ (i : Nat) (h1 : i < t.length) (h2 : rs.length - 1 - i < rs.length),
      t.get ⟨i, h1⟩ = rs.get ⟨rs.length - 1 - i, h2⟩ := by
  have htt : t = rs.reverse := by
    have hw : wrangle_data raw = Except.ok (((json_normalize rs).reverse).map fillRow) := by
      unfold wrangle_data
      rw [hdata]
    rw [hw] at ht
    injection ht with ht
    rw [← ht]
    unfold json_normalize
    rw [List.map_reverse, List.map_map]
    congr 1
    have hid : List.map (fillRow ∘ completeRow (colsOf rs)) rs = List.map id rs :=
      List.map_congr_left (fun r hr => hcomplete r hr)
    rw [hid, List.map_id]
  subst htt
  refine ⟨List.length_reverse rs, ?_⟩
  intro i h1 h2
  rw [List.get_eq_getElem, List.get_eq_getElem, List.getElem_reverse]

/-- Witness for claim C9 at the descending fixture: row 0 of the output is record 4 of the input. -/
theorem wrangle_is_elementwise_reversal_witness :
    (∀ r ∈ ([r17, r16, r15, r14, r13] : List Record),
       fillRow (completeRow (colsOf [r17, r16, r15, r14, r13]) r) = r) ∧
    wrangle_data descRaw = Except.ok [r13, r14, r15, r16, r17] ∧
    ([r13, r14, r15, r16, r17] : Table).length = 5 ∧
    ([r13, r14, r15, r16, r17] : Table).get ⟨0, by decide⟩ =
      ([r17, r16, r15, r14, r13] : List Record).get ⟨4, by decide⟩ := by
  have h := wrangle_is_elementwise_reversal descRaw [r17, r16, r15, r14, r13]
    [r13, r14, r15, r16, r17] rfl (by decide) rfl
  exact ⟨by decide, rfl, h.1.trans rfl, h.2 0 (by decide) (by decide)⟩

/-- Claim C10: on a successful refresh the callback's event trace is exactly fetch, then the `df` assignment, then the two renders (both reading the new table, never the old), then the icon change to "check" — so the re-render always sees the new table and the success indicator comes last. -/
theorem callback_assigns_df_before_rendering
    (g : List String → List (String × String) → Except String Raw) (s : DashState)
    (r : Raw) (t : Table)
    (h1 : access_api g = Except.ok r) (h2 : wrangle_data r = Except.ok t) :
    (api_button_callback g s).2.1 =
      [Event.fetchCall, Event.dfAssign t,
       Event.render t (other_of s.colsValue), Event.render t s.colsValue,
       Event.iconSet "check"] ∧
    (api_button_callback g s).1.icon = "check" := by
  simp only [api_button_callback, h1, h2]
  refine ⟨?_, trivial⟩
  show [Event.fetchCall, Event.dfAssign t] ++ (refresh_graph { s with df := t }).2 ++
        [Event.iconSet "check"] = _
  rw [refresh_graph_events]
  rfl

/-- Witness for claim C10 at the one-row fixture snapshot. -/
theorem callback_assigns_df_before_rendering_witness :
    access_api (fun _ _ => Except.ok raw18) = Except.ok raw18 ∧
    wrangle_data raw18 = Except.ok [r18] ∧
    (api_button_callback (fun _ _ => Except.ok raw18) s0).2.1 =
      [Event.fetchCall, Event.dfAssign [r18],
       Event.render [r18] "totalDeaths", Event.render [r18] "totalCases",
       Event.iconSet "check"] ∧
    (api_button_callback (fun _ _ => Except.ok raw18) s0).1.icon = "check" := by
  have h := callback_assigns_df_before_rendering (fun _ _ => Except.ok raw18) s0 raw18 [r18] rfl rfl
  exact ⟨rfl, rfl, h.1, h.2⟩
